import Mathlib

/-!
Shallow embedding of the conduit-connector-databricks destination connector.

The development models, straight from the Go source:
  * the dynamic JSON-like values that `encoding/json` decodes into
    `map[string]interface\x7b\x7d` (type `Value` below); Go maps are modelled as
    association lists, and every map write goes through `setKey`, which
    replaces an existing binding or appends a fresh one, exactly the
    semantics of `m[k] = v` on a Go map;
  * the `ansiQueryBuilder` of the query builder file (`buildInsert`,
    `buildUpdate`, `buildDelete`, `describeTable`); the rendering that the
    external goqu library performs after the validation guards is modelled
    as a total function (goqu never fails on the scalar values this
    connector hands it), while the guards and their error messages are
    translated verbatim;
  * the `sqlClient` operations of client.go (`Insert`, `Update`, `Delete`,
    `merge`), parameterised over the database handle, the JSON codec and
    the query-builder interface, which are external collaborators in the
    source (`*sql.DB`, `encoding/json`, the `queryBuilder` interface);
  * the variant of `sqlClient.Insert` / the record normalisation found in
    the revision that serialises nested composite values before building
    the statement (namespace `PartTen`);
  * `Destination.Write` of destination.go, parameterised over the `Client`
    interface it dispatches to.
-/

/-- Dynamic JSON-like value, the model of a Go `interface\x7b\x7d` obtained by
decoding JSON. Numbers are modelled as integers; no claim in this
development depends on the numeric representation. -/
inductive Value : Type where
  | null : Value
  | bool : Bool → Value
  | num : Int → Value
  | str : String → Value
  | arr : List Value → Value
  | obj : List (String × Value) → Value

/-- A value is composite when it is a nested object or an ordered list,
the two cases that the Go code matches as
`map[string]interface\x7b\x7d, []interface\x7b\x7d`. -/
def Value.isComposite : Value → Bool
  | .arr _ => true
  | .obj _ => true
  | _ => false

/-- Escaping of one character inside a JSON string, as `encoding/json`
does for quotes and backslashes. -/
def jsonEscapeChar (c : Char) : String :=
  if c = Char.ofNat 34 then "\x5c\x22"
  else if c = Char.ofNat 92 then "\x5c\x5c"
  else String.singleton c

/-- Escaping of a JSON string body. -/
def jsonEscape (s : String) : String :=
  String.join (s.toList.map jsonEscapeChar)

mutual

/-- Model of `json.Marshal` on the decoded value universe: the canonical
serialized JSON text of a value. -/
def jsonEncode : Value → String
  | .null => "null"
  | .bool true => "true"
  | .bool false => "false"
  | .num n => toString n
  | .str s => "\x22" ++ jsonEscape s ++ "\x22"
  | .arr l => "[" ++ jsonEncodeArr l ++ "]"
  | .obj l => "\x7b" ++ jsonEncodeObj l ++ "\x7d"

/-- Comma-separated serialization of the elements of a JSON array. -/
def jsonEncodeArr : List Value → String
  | [] => ""
  | [v] => jsonEncode v
  | v :: rest => jsonEncode v ++ "," ++ jsonEncodeArr rest

/-- Comma-separated serialization of the fields of a JSON object. -/
def jsonEncodeObj : List (String × Value) → String
  | [] => ""
  | [(k, v)] => "\x22" ++ jsonEscape k ++ "\x22:" ++ jsonEncode v
  | (k, v) :: rest =>
      "\x22" ++ jsonEscape k ++ "\x22:" ++ jsonEncode v ++ "," ++ jsonEncodeObj rest

end

/-- The model of `opencdc.StructuredData` / `map[string]interface\x7b\x7d`:
an association list from column names to values. -/
abbrev StructuredData : Type := List (String × Value)

/-- Map lookup, the model of `v, ok := m[k]`. -/
def lookupSD : StructuredData → String → Option Value
  | [], _ => none
  | p :: t, k => if p.1 = k then some p.2 else lookupSD t k

/-- Key membership, the model of `_, ok := m[k]` used as a test. -/
def containsKey : StructuredData → String → Bool
  | [], _ => false
  | p :: t, k => if p.1 = k then true else containsKey t k

/-- Map write, the model of `m[k] = v` on a Go map: replace the existing
binding for `k` when there is one, otherwise append a fresh binding. -/
def setKey (m : StructuredData) (k : String) (v : Value) : StructuredData :=
  if containsKey m k then
    m.map (fun p => if p.1 = k then (k, v) else p)
  else
    m ++ [(k, v)]

/-- Copy every entry of `m` into `acc`, the model of
`for k, v := range m \x7b acc[k] = v \x7d`. -/
def insertAll (acc : StructuredData) (m : StructuredData) : StructuredData :=
  m.foldl (fun a p => setKey a p.1 p.2) acc

/-- Model of `sqlClient.merge` from client.go: copy `m1` into a fresh map,
then copy `m2` over it, so entries of `m2` overwrite entries of `m1` that
share a key. -/
def merge (m1 m2 : StructuredData) : StructuredData :=
  insertAll (insertAll [] m1) m2

/-! The `ansiQueryBuilder` of the query builder file. The databricks goqu
dialect quotes identifiers with backticks; dotted names are quoted
part by part. -/

/-- Backtick quoting of an identifier, part by part around the dots, as
the registered databricks goqu dialect renders identifiers. -/
def quoteIdentifier (s : String) : String :=
  String.intercalate "." ((s.splitOn ".").map (fun part => "`" ++ part ++ "`"))

/-- The single-quote character. -/
def sqlQuoteChar : Char := Char.ofNat 39

/-- Escaping of one character inside a SQL string literal. -/
def sqlEscapeChar (c : Char) : String :=
  if c = sqlQuoteChar then "\x5c\x27" else String.singleton c

/-- Escaping of a SQL string literal body. -/
def sqlEscape (s : String) : String :=
  String.join (s.toList.map sqlEscapeChar)

/-- Model of the goqu literal rendering of one value, total over the
embedded value universe: scalars become SQL literals, composite values
are rendered through their serialized text. -/
def renderLiteral : Value → String
  | .null => "NULL"
  | .bool true => "TRUE"
  | .bool false => "FALSE"
  | .num n => toString n
  | .str s => "\x27" ++ sqlEscape s ++ "\x27"
  | v => "\x27" ++ sqlEscape (jsonEncode v) ++ "\x27"

/-- Rendering of one equality of the WHERE predicate. -/
def renderEq (p : String × Value) : String :=
  quoteIdentifier p.1 ++ " = " ++ renderLiteral p.2

/-- Rendering of the conjunctive equality predicate over the key map. -/
def renderWhere (keys : StructuredData) : String :=
  "(" ++ String.intercalate " AND " (keys.map renderEq) ++ ")"

/-- Rendering of the SET clause of an UPDATE statement. -/
def renderSet (values : StructuredData) : String :=
  String.intercalate "," (values.map (fun p => quoteIdentifier p.1 ++ "=" ++ renderLiteral p.2))

/-- Model of `ansiQueryBuilder.buildDelete`: guard the table name, then
the key map, then render the DELETE statement. Returns the pair
`(sql, error)` of the Go signature. -/
def buildDelete (table : String) (keys : StructuredData) : String × Option String :=
  if table = "" then
    ("", some "table name not provided")
  else if keys.length = 0 then
    ("", some "no keys provided")
  else
    ("DELETE FROM " ++ quoteIdentifier table ++ " WHERE " ++ renderWhere keys, none)

/-- Model of `ansiQueryBuilder.buildUpdate`: guard the table name, the
key map, and the value map, then render the UPDATE statement. -/
def buildUpdate (table : String) (keys : StructuredData) (values : StructuredData) :
    String × Option String :=
  if table = "" then
    ("", some "table name not provided")
  else if keys.length = 0 then
    ("", some "no keys provided")
  else if values.length = 0 then
    ("", some "no values provided")
  else
    ("UPDATE " ++ quoteIdentifier table ++ " SET " ++ renderSet values ++
      " WHERE " ++ renderWhere keys, none)

/-- Whitespace test of one character, the model of `unicode.IsSpace` on
the ASCII whitespace characters. -/
def isSpaceChar (c : Char) : Bool :=
  c = ' ' || c = Char.ofNat 9 || c = Char.ofNat 10 || c = Char.ofNat 13

/-- Trimming of whitespace at both ends of a character list. -/
def trimChars (l : List Char) : List Char :=
  ((l.dropWhile isSpaceChar).reverse.dropWhile isSpaceChar).reverse

/-- Model of `strings.TrimSpace`: remove the whitespace at both ends. -/
def trimSpace (s : String) : String :=
  String.mk (trimChars s.toList)

/-- Model of `ansiQueryBuilder.buildInsert`: the arity of columns and
values is checked first, then the blank-table guard (the Go code trims
the table name with `strings.TrimSpace` before comparing with `""`),
then the INSERT statement is rendered. -/
def buildInsert (table : String) (columns : List String) (values : List Value) :
    String × Option String :=
  if columns.length ≠ values.length then
    ("", some ("expected equal number of columns and values, but got " ++
      toString columns.length ++ " column(s) and " ++ toString values.length ++ " value(s)"))
  else if trimSpace table = "" then
    ("", some "error creating sqlString: insert statements must specify a table")
  else
    ("INSERT INTO " ++ quoteIdentifier table ++ " (" ++
      String.intercalate ", " (columns.map quoteIdentifier) ++ ") VALUES (" ++
      String.intercalate ", " (values.map renderLiteral) ++ ")", none)

/-- Model of `ansiQueryBuilder.describeTable`. -/
def describeTable (table : String) : String :=
  "DESCRIBE " ++ table

/-! The sqlClient of client.go, parameterised over its external
collaborators: the database handle, the JSON codec, and the query
builder interface. -/

/-- The result object of a statement execution (`sql.Result`): asking for
the affected-row count may itself fail. -/
structure ExecResult where
  rowsAffected : Except String Int

/-- The database handle the client talks to, the model of `*sql.DB`:
preparing a statement may fail, executing a statement may fail or yield a
result object. A prepared statement is executed with the same SQL text it
was prepared from. -/
structure DB where
  prepare : String → Except String Unit
  exec : String → Except String ExecResult

/-- The `queryBuilder` interface of client.go (this revision hands the
builder one flat map of column values). -/
structure QueryBuilderI where
  buildInsert : String → StructuredData → String × Option String
  buildUpdate : String → StructuredData → StructuredData → String × Option String
  buildDelete : String → StructuredData → String × Option String
  describeTable : String → String

/-- The `sqlClient` state: database handle, target table, cached columns,
and the query builder. -/
structure SqlClient where
  db : DB
  tableName : String
  columns : List String
  queryBuilder : QueryBuilderI

/-- The JSON codec (`encoding/json`), an external collaborator:
`unmarshal` decodes raw bytes into structured data or fails. -/
structure Jsonlib where
  unmarshal : String → Except String StructuredData

/-- The operation kind of a CDC record. -/
inductive Operation : Type where
  | create : Operation
  | update : Operation
  | delete : Operation
  | snapshot : Operation

/-- The payload of a record (`opencdc.Change`): raw bytes of the before
and after images; `none` models a nil `opencdc.Data`. -/
structure Change where
  before : Option String
  after : Option String

/-- A CDC record: operation kind, raw key bytes, payload. -/
structure Record where
  operation : Operation
  key : String
  payload : Change

/-- Bytes of an optional data field: nil data yields empty bytes. -/
def bytesOf (d : Option String) : String :=
  d.getD ""

namespace ClientGo

/-- The query-building phase of `sqlClient.Insert` from client.go:
unmarshal the payload and the key, merge them (payload first, key
overlaid on top), and hand the merged map to the query builder. -/
def insertSQL (j : Jsonlib) (c : SqlClient) (r : Record) : Except String String :=
  match j.unmarshal (bytesOf r.payload.after) with
  | .error e => .error ("error unmarshalling payload: " ++ e)
  | .ok payload =>
    match j.unmarshal r.key with
    | .error e => .error ("error unmarshalling key: " ++ e)
    | .ok key =>
      let insertValues := merge payload key
      match c.queryBuilder.buildInsert c.tableName insertValues with
      | (_, some e) => .error ("failed building query: " ++ e)
      | (sqlString, none) => .ok sqlString

/-- Model of `sqlClient.Insert` from client.go: build the statement,
prepare it, execute it, and demand exactly one affected row. -/
def Insert (j : Jsonlib) (c : SqlClient) (r : Record) : Except String Unit :=
  match insertSQL j c r with
  | .error e => .error e
  | .ok sqlString =>
    match c.db.prepare sqlString with
    | .error e => .error ("failed to prepare db statement: " ++ e)
    | .ok _ =>
      match c.db.exec sqlString with
      | .error e => .error ("failed to execute db statement: " ++ e ++ " ")
      | .ok res =>
        match res.rowsAffected with
        | .error e => .error ("failed to get number of affected rows: " ++ e ++ " ")
        | .ok affected =>
          if affected ≠ 1 then .error (toString affected ++ " rows inserted") else .ok ()

/-- The query-building phase of `sqlClient.Update` from client.go.
Returns `ok none` when the record has nothing to update (nil or empty
`payload.after`), in which case no statement is built at all. -/
def updateSQL (j : Jsonlib) (c : SqlClient) (r : Record) : Except String (Option String) :=
  if r.payload.after.isNone || (bytesOf r.payload.after).isEmpty then
    .ok none
  else
    match j.unmarshal (bytesOf r.payload.after) with
    | .error e => .error ("error unmarshalling payload: " ++ e)
    | .ok payload =>
      match j.unmarshal r.key with
      | .error e => .error ("error unmarshalling key: " ++ e)
      | .ok key =>
        match c.queryBuilder.buildUpdate c.tableName key payload with
        | (_, some e) => .error ("failed building update query: " ++ e)
        | (sqlString, none) => .ok (some sqlString)

/-- Model of `sqlClient.Update` from client.go: short-circuit on an empty
after image, otherwise build and execute; the affected-row count is not
consulted. -/
def Update (j : Jsonlib) (c : SqlClient) (r : Record) : Except String Unit :=
  match updateSQL j c r with
  | .error e => .error e
  | .ok none => .ok ()
  | .ok (some sqlString) =>
    match c.db.exec sqlString with
    | .error e => .error ("failed update: " ++ e)
    | .ok _ => .ok ()

/-- The query-building phase of `sqlClient.Delete` from client.go. -/
def deleteSQL (j : Jsonlib) (c : SqlClient) (r : Record) : Except String String :=
  match j.unmarshal r.key with
  | .error e => .error ("error unmarshalling key: " ++ e)
  | .ok key =>
    match c.queryBuilder.buildDelete c.tableName key with
    | (_, some e) => .error ("failed building delete query: " ++ e)
    | (sqlString, none) => .ok sqlString

/-- Model of `sqlClient.Delete` from client.go: build and execute; the
affected-row count is not consulted. -/
def Delete (j : Jsonlib) (c : SqlClient) (r : Record) : Except String Unit :=
  match deleteSQL j c r with
  | .error e => .error e
  | .ok sqlString =>
    match c.db.exec sqlString with
    | .error e => .error ("failed delete: " ++ e)
    | .ok _ => .ok ()

end ClientGo

namespace PartTen

/-- One value of the normalisation loop of the revision that serialises
nested structures: composite values are re-encoded to their JSON text,
scalars pass through. -/
def processValue (v : Value) : Value :=
  match v with
  | .obj l => .str (jsonEncode (.obj l))
  | .arr l => .str (jsonEncode (.arr l))
  | _ => v

/-- The normalisation loop itself:
`for k, v := range m \x7b processed[k] = process(v) \x7d`. -/
def processData (m : StructuredData) : StructuredData :=
  m.foldl (fun acc p => setKey acc p.1 (processValue p.2)) []

/-- The key-decoding fallback of the serialising revision: when the key
bytes do not decode, use the `id` field of the payload when present. -/
def fallbackKey (payload : StructuredData) (e : String) : Except String StructuredData :=
  match lookupSD payload "id" with
  | some id => .ok [("id", id)]
  | none => .error ("error unmarshalling key and no ID in payload to use as fallback: " ++ e)

/-- Key decoding of the serialising revision: unmarshal the key bytes,
falling back to the payload `id` field on a decode failure. -/
def decodeKey (j : Jsonlib) (payload : StructuredData) (r : Record) :
    Except String StructuredData :=
  match j.unmarshal r.key with
  | .ok key => .ok key
  | .error e => fallbackKey payload e

/-- The normalisation phase of the `sqlClient.Insert` revision that
serialises composites: unmarshal payload and key (falling back to the
payload `id` field when the key does not decode), process both maps, and
merge them into the flat map handed to the query builder. -/
def insertValues (j : Jsonlib) (_c : SqlClient) (r : Record) : Except String StructuredData :=
  match j.unmarshal (bytesOf r.payload.after) with
  | .error e => .error ("error unmarshalling payload: " ++ e)
  | .ok payload =>
    match decodeKey j payload r with
    | .error e => .error e
    | .ok key =>
      let processedPayload := processData payload
      let processedKey := processData key
      .ok (merge processedPayload processedKey)

/-- Model of the `sqlClient.Insert` revision that serialises composites:
normalise, build, prepare, execute, and demand exactly one affected
row. -/
def Insert (j : Jsonlib) (c : SqlClient) (r : Record) : Except String Unit :=
  match insertValues j c r with
  | .error e => .error e
  | .ok vals =>
    match c.queryBuilder.buildInsert c.tableName vals with
    | (_, some e) => .error ("failed building query: " ++ e)
    | (sqlString, none) =>
      match c.db.prepare sqlString with
      | .error e => .error ("failed to prepare db statement: " ++ e)
      | .ok _ =>
        match c.db.exec sqlString with
        | .error e => .error ("failed to execute db statement: " ++ e ++ " ")
        | .ok res =>
          match res.rowsAffected with
          | .error e => .error ("failed to get number of affected rows: " ++ e ++ " ")
          | .ok affected =>
            if affected ≠ 1 then .error (toString affected ++ " rows inserted") else .ok ()

end PartTen

/-! The Destination of destination.go. -/

/-- The `Client` interface the destination dispatches to. -/
structure ClientOps where
  insert : Record → Except String Unit
  update : Record → Except String Unit
  delete : Record → Except String Unit

/-- Model of `sdk.Util.Destination.Route` as destination.go invokes it:
create and snapshot records go to `insert`, updates to `update`, deletes
to `delete`. -/
def route (cl : ClientOps) (r : Record) : Except String Unit :=
  match r.operation with
  | .create => cl.insert r
  | .update => cl.update r
  | .delete => cl.delete r
  | .snapshot => cl.insert r

/-- The loop body of `Destination.Write`: handle the records one by one,
stopping at the first failure with its zero-based index. -/
def writeAux (cl : ClientOps) : List Record → Nat → Option (Nat × String)
  | [], _ => none
  | r :: rest, i =>
    match route cl r with
    | .error e => some (i, e)
    | .ok _ => writeAux cl rest (i + 1)

/-- Model of `Destination.Write`: route every record in order; on the
first failure return its index and the wrapped error, otherwise return
the number of records. -/
def Write (cl : ClientOps) (records : List Record) : Nat × Option String :=
  match writeAux cl records 0 with
  | some (i, e) => (i, some ("unable to handle record: " ++ e))
  | none => (records.length, none)

/-- A structured-data map whose values are all non-composite: what the
query builder is allowed to receive after normalisation. -/
def NoComposites (m : StructuredData) : Prop :=
  ∀ p ∈ m, p.2.isComposite = false

/-! Concrete collaborators used to evaluate the theorems on closed
inputs. -/

/-- A JSON codec that decodes everything to a one-field id map. -/
def jOkW : Jsonlib :=
  ⟨fun _ => .ok [("id", Value.num 1)]⟩

/-- A JSON codec that decodes everything to a map holding one nested
object value. -/
def jObjW : Jsonlib :=
  ⟨fun _ => .ok [("a", Value.obj [("x", Value.num 1)])]⟩

/-- A query builder whose three builders always succeed. -/
def qbOkW : QueryBuilderI :=
  ⟨fun _ _ => ("INSERT-SQL", none), fun _ _ _ => ("UPDATE-SQL", none),
   fun _ _ => ("DELETE-SQL", none), fun t => "DESCRIBE " ++ t⟩

/-- A database handle whose statements all succeed and report one
affected row. -/
def dbOkW : DB :=
  ⟨fun _ => .ok (), fun _ => .ok ⟨.ok 1⟩⟩

/-- A client wired to the always-succeeding collaborators. -/
def clientOkW : SqlClient :=
  ⟨dbOkW, "products", ["id"], qbOkW⟩

/-- A record with a non-empty after image. -/
def recW : Record :=
  ⟨.create, "key-bytes", ⟨none, some "payload-bytes"⟩⟩

/-- An update record with no after image. -/
def recEmptyW : Record :=
  ⟨.update, "key-bytes", ⟨none, none⟩⟩

/-- A client interface whose operations all succeed. -/
def opsOkW : ClientOps :=
  ⟨fun _ => .ok (), fun _ => .ok (), fun _ => .ok ()⟩

/-- A client interface whose insert fails while update and delete
succeed. -/
def opsFailW : ClientOps :=
  ⟨fun _ => .error "boom", fun _ => .ok (), fun _ => .ok ()⟩

/-- An update record for the batch witness. -/
def recUpdW : Record :=
  ⟨.update, "k", ⟨none, some "x"⟩⟩

/-- A create record for the batch witness. -/
def recCreateW : Record :=
  ⟨.create, "k", ⟨none, some "x"⟩⟩

/-- A delete record for the batch witness. -/
def recDelW : Record :=
  ⟨.delete, "k", ⟨none, none⟩⟩

/-! Lemmas about the association-list model of Go maps. -/

/-- Replacing the bindings of key `k` does not change the lookup of
another key. -/
theorem lookupSD_map_replace_ne {k k' : String} (h : k' ≠ k) (v : Value) :
    ∀ m : StructuredData,
      lookupSD (m.map (fun p => if p.1 = k then (k, v) else p)) k' = lookupSD m k'
  | [] => rfl
  | p :: t => by
    by_cases hp : p.1 = k
    · have hk : ¬(k = k') := fun hh => h hh.symm
      have hp' : ¬(p.1 = k') := fun hh => hk (hp ▸ hh)
      simp only [List.map_cons, if_pos hp, lookupSD, hk, if_neg, hp', if_false]
      exact lookupSD_map_replace_ne h v t
    · simp only [List.map_cons, if_neg hp, lookupSD]
      by_cases hq : p.1 = k'
      · simp only [if_pos hq]
      · simp only [if_neg hq]
        exact lookupSD_map_replace_ne h v t

/-- When key `k` occurs in the map, replacing its bindings with `(k, v)`
makes `k` look up to `v`. -/
theorem lookupSD_map_replace_self {k : String} (v : Value) :
    ∀ m : StructuredData, containsKey m k = true →
      lookupSD (m.map (fun p => if p.1 = k then (k, v) else p)) k = some v
  | p :: t, h => by
    by_cases hp : p.1 = k
    · simp [List.map_cons, if_pos hp, lookupSD]
    · simp only [containsKey, if_neg hp] at h
      simp only [List.map_cons, if_neg hp, lookupSD, if_neg hp]
      exact lookupSD_map_replace_self v t h

/-- Looking up a key absent from the first list skips it. -/
theorem lookupSD_append_of_not_contains {k : String} :
    ∀ (m l : StructuredData), containsKey m k = false →
      lookupSD (m ++ l) k = lookupSD l k
  | [], _, _ => rfl
  | p :: t, l, h => by
    by_cases hp : p.1 = k
    · simp only [containsKey, if_pos hp] at h
      exact Bool.noConfusion h
    · simp only [containsKey, if_neg hp] at h
      simp only [List.cons_append, lookupSD, if_neg hp]
      exact lookupSD_append_of_not_contains t l h

/-- Setting key `k` makes `k` look up to the new value. -/
theorem lookupSD_setKey_self (m : StructuredData) (k : String) (v : Value) :
    lookupSD (setKey m k v) k = some v := by
  unfold setKey
  by_cases h : containsKey m k
  · simp only [if_pos h]
    exact lookupSD_map_replace_self v m h
  · simp only [if_neg h]
    have h0 : containsKey m k = false := by
      cases hc : containsKey m k
      · rfl
      · exact absurd hc h
    rw [lookupSD_append_of_not_contains m [(k, v)] h0]
    simp [lookupSD]

/-- Appending a fresh binding for key `k` does not change the lookup of
another key. -/
theorem lookupSD_append_single_ne {k k' : String} (h : k' ≠ k) (v : Value) :
    ∀ m : StructuredData, lookupSD (m ++ [(k, v)]) k' = lookupSD m k'
  | [] => by
    simp only [List.nil_append, lookupSD]
    rw [if_neg (fun hh => h hh.symm)]
  | p :: t => by
    simp only [List.cons_append, lookupSD]
    by_cases hq : p.1 = k'
    · simp only [if_pos hq]
    · simp only [if_neg hq]
      exact lookupSD_append_single_ne h v t

/-- Setting key `k` does not change the lookup of another key. -/
theorem lookupSD_setKey_ne {k k' : String} (h : k' ≠ k) (m : StructuredData) (v : Value) :
    lookupSD (setKey m k v) k' = lookupSD m k' := by
  unfold setKey
  by_cases hc : containsKey m k
  · simp only [if_pos hc]
    exact lookupSD_map_replace_ne h v m
  · simp only [if_neg hc]
    exact lookupSD_append_single_ne h v m

/-- Copying entries none of which binds key `k` does not change the
lookup of `k`. -/
theorem lookupSD_insertAll_not_mem {k : String} :
    ∀ (l acc : StructuredData), (∀ p ∈ l, p.1 ≠ k) →
      lookupSD (insertAll acc l) k = lookupSD acc k
  | [], _, _ => rfl
  | p :: t, acc, h => by
    have hp : p.1 ≠ k := h p (List.mem_cons_self p t)
    have ht : ∀ q ∈ t, q.1 ≠ k := fun q hq => h q (List.mem_cons_of_mem p hq)
    show lookupSD (insertAll (setKey acc p.1 p.2) t) k = lookupSD acc k
    rw [lookupSD_insertAll_not_mem t (setKey acc p.1 p.2) ht]
    exact lookupSD_setKey_ne (fun hh => hp hh.symm) acc p.2

/-- Copying a map with pairwise-distinct keys into any accumulator
preserves its own lookups: the last writer for each key is the copied
map itself. -/
theorem lookupSD_insertAll_found {k : String} {v : Value} :
    ∀ (l acc : StructuredData), l.Pairwise (fun p q => p.1 ≠ q.1) →
      lookupSD l k = some v → lookupSD (insertAll acc l) k = some v
  | p :: t, acc, hpw, hlook => by
    have hpw' := (List.pairwise_cons.mp hpw)
    show lookupSD (insertAll (setKey acc p.1 p.2) t) k = some v
    by_cases hp : p.1 = k
    · have hv : some p.2 = some v := by
        simpa only [lookupSD, if_pos hp] using hlook
      have ht : ∀ q ∈ t, q.1 ≠ k := fun q hq hh =>
        hpw'.1 q hq (hp ▸ hh ▸ rfl)
      rw [lookupSD_insertAll_not_mem t (setKey acc p.1 p.2) ht, ← hp,
        lookupSD_setKey_self]
      exact hv
    · have hlook' : lookupSD t k = some v := by
        simpa only [lookupSD, if_neg hp] using hlook
      exact lookupSD_insertAll_found t (setKey acc p.1 p.2) hpw'.2 hlook'

/-! Claim C1. -/

/-- Claim C1, counterexample: with payload and key both binding column
`a`, the merged map handed to the query builder by `sqlClient.Insert`
(`merge payload key`) binds `a` to the KEY value, not to the payload
value, refuting the claim at this input. -/
theorem c1_counterexample :
    lookupSD [("a", Value.str "payload-value")] "a" = some (Value.str "payload-value") ∧
    lookupSD (merge [("a", Value.str "payload-value")] [("a", Value.str "key-value")]) "a"
      = some (Value.str "key-value") ∧
    Value.str "key-value" ≠ Value.str "payload-value" :=
  ⟨rfl, rfl, by
    intro h
    injection h with h2
    exact absurd h2 (by decide)⟩

/-- Claim C1, amended: for every payload map and key map that both
contain the same column name, the merged flat mapping handed to the query
builder by the client (the result of `merge payload key` in
`sqlClient.Insert`) maps that column name to the KEY value, not the
payload value: the key map is copied second, so its entries overwrite the
payload entries on a name collision. (Key maps, coming from a Go map,
have pairwise-distinct keys.) -/
theorem c1_merge_key_overrides_payload
    (payload key : StructuredData) (col : String) (v : Value)
    (hkeys : key.Pairwise (fun p q => p.1 ≠ q.1))
    (hlook : lookupSD key col = some v) :
    lookupSD (merge payload key) col = some v :=
  lookupSD_insertAll_found key (insertAll [] payload) hkeys hlook

/-- Claim C1, witness: the amended theorem evaluated on a concrete
payload and key that collide on column `a`. -/
theorem c1_witness :
    lookupSD (merge [("a", Value.str "payload-value")] [("a", Value.str "key-value")]) "a"
      = some (Value.str "key-value") :=
  c1_merge_key_overrides_payload
    [("a", Value.str "payload-value")] [("a", Value.str "key-value")]
    "a" (Value.str "key-value") (List.pairwise_singleton _ _) rfl

/-! Claim C2. -/

/-- Claim C2: `Insert` returns success exactly when the whole pipeline
up to statement execution succeeds AND the reported affected-row count is
exactly one (so any other count yields an error), while `Update` and
`Delete` return success after a successful execution regardless of the
result object and in particular of its affected-row count (the result
`res` is arbitrary, its `rowsAffected` is never consulted). -/
theorem c2_rows_affected_policy :
    (∀ (j : Jsonlib) (c : SqlClient) (r : Record),
      ClientGo.Insert j c r = .ok () ↔
        ∃ sql res, ClientGo.insertSQL j c r = .ok sql ∧
          c.db.prepare sql = .ok () ∧ c.db.exec sql = .ok res ∧
          res.rowsAffected = .ok 1) ∧
    (∀ (j : Jsonlib) (c : SqlClient) (r : Record) (sql : String) (res : ExecResult),
      ClientGo.updateSQL j c r = .ok (some sql) → c.db.exec sql = .ok res →
      ClientGo.Update j c r = .ok ()) ∧
    (∀ (j : Jsonlib) (c : SqlClient) (r : Record) (sql : String) (res : ExecResult),
      ClientGo.deleteSQL j c r = .ok sql → c.db.exec sql = .ok res →
      ClientGo.Delete j c r = .ok ()) := by
  refine ⟨fun j c r => ⟨fun h => ?_, fun h => ?_⟩, fun j c r sql res hs he => ?_,
    fun j c r sql res hs he => ?_⟩
  · unfold ClientGo.Insert at h
    split at h
    · exact Except.noConfusion h
    · rename_i sql hs
      split at h
      · exact Except.noConfusion h
      · rename_i u hp
        split at h
        · exact Except.noConfusion h
        · rename_i res he
          split at h
          · exact Except.noConfusion h
          · rename_i n hr
            split at h
            · exact Except.noConfusion h
            · rename_i hn
              have hn1 : n = 1 := not_not.mp hn
              refine ⟨sql, res, hs, ?_, he, hn1 ▸ hr⟩
              cases u
              exact hp
  · obtain ⟨sql, res, hs, hp, he, hr⟩ := h
    simp [ClientGo.Insert, hs, hp, he, hr]
  · simp [ClientGo.Update, hs, he]
  · simp [ClientGo.Delete, hs, he]

/-- Claim C2, witness: the three parts evaluated on the concrete
always-succeeding collaborators. -/
theorem c2_witness :
    ClientGo.Insert jOkW clientOkW recW = .ok () ∧
    ClientGo.Update jOkW clientOkW recW = .ok () ∧
    ClientGo.Delete jOkW clientOkW recW = .ok () :=
  ⟨(c2_rows_affected_policy.1 jOkW clientOkW recW).mpr
      ⟨"INSERT-SQL", ⟨Except.ok 1⟩, rfl, rfl, rfl, rfl⟩,
    c2_rows_affected_policy.2.1 jOkW clientOkW recW "UPDATE-SQL" ⟨Except.ok 1⟩ rfl rfl,
    c2_rows_affected_policy.2.2 jOkW clientOkW recW "DELETE-SQL" ⟨Except.ok 1⟩ rfl rfl⟩

/-! Claim C3. -/

/-- Claim C3, counterexample: with a blank table AND mismatched column
and value counts, `buildInsert` reports the arity mismatch, not the
missing-table message: the failure message is NOT independent of the
columns and values arguments, because the arity check runs first. -/
theorem c3_counterexample :
    buildInsert "" ["id", "name"] [Value.num 1] =
      ("", some "expected equal number of columns and values, but got 2 column(s) and 1 value(s)") ∧
    ("expected equal number of columns and values, but got 2 column(s) and 1 value(s)" : String) ≠
      "error creating sqlString: insert statements must specify a table" :=
  ⟨rfl, by decide⟩

/-- Claim C3, amended: for every columns list and values list OF EQUAL
LENGTH, `buildInsert` called with a blank table name returns an empty SQL
string and the error message
`error creating sqlString: insert statements must specify a table`
(when the lengths differ the arity-mismatch message is reported
instead, since that check runs first). -/
theorem c3_blank_table_insert (table : String) (columns : List String) (values : List Value)
    (hlen : columns.length = values.length) (htable : trimSpace table = "") :
    buildInsert table columns values =
      ("", some "error creating sqlString: insert statements must specify a table") := by
  unfold buildInsert
  rw [if_neg (fun hne => hne hlen), if_pos htable]

/-- Claim C3, witness: the amended theorem evaluated on a blank table
with two columns and two values. -/
theorem c3_witness :
    (["id", "name"] : List String).length = [Value.num 1, Value.str "computer"].length ∧
    trimSpace "" = "" ∧
    buildInsert "" ["id", "name"] [Value.num 1, Value.str "computer"] =
      ("", some "error creating sqlString: insert statements must specify a table") :=
  ⟨rfl, rfl, c3_blank_table_insert "" ["id", "name"] [Value.num 1, Value.str "computer"] rfl rfl⟩

/-! Claim C4. -/

/-- Claim C4, counterexample: with the empty table name, `buildUpdate`
and `buildDelete` called with an empty key map report
`table name not provided`, not `no keys provided`, because the table
guard runs first — so the claim does not hold for EVERY table name. -/
theorem c4_counterexample :
    buildUpdate "" [] [("c", Value.str "d")] = ("", some "table name not provided") ∧
    buildDelete "" [] = ("", some "table name not provided") ∧
    ("table name not provided" : String) ≠ "no keys provided" :=
  ⟨rfl, rfl, by decide⟩

/-- Claim C4, amended: for every NON-EMPTY table name, `buildUpdate` and
`buildDelete` called with an empty key map return no SQL text and the
error `no keys provided`, and `buildUpdate` called with a non-empty key
map but an empty values map returns no SQL text and the error
`no values provided`. -/
theorem c4_missing_keys_values (table : String) (keys values : StructuredData)
    (htable : table ≠ "") :
    (keys.length = 0 → buildUpdate table keys values = ("", some "no keys provided")) ∧
    (keys.length = 0 → buildDelete table keys = ("", some "no keys provided")) ∧
    (keys.length ≠ 0 → values.length = 0 →
      buildUpdate table keys values = ("", some "no values provided")) := by
  refine ⟨fun hk => ?_, fun hk => ?_, fun hk hv => ?_⟩
  · unfold buildUpdate
    rw [if_neg htable, if_pos hk]
  · unfold buildDelete
    rw [if_neg htable, if_pos hk]
  · unfold buildUpdate
    rw [if_neg htable, if_neg hk, if_pos hv]

/-- Claim C4, witness: the amended theorem evaluated on the table of the
repository tests. -/
theorem c4_witness :
    buildUpdate "test.products" [] [("c", Value.str "d")] = ("", some "no keys provided") ∧
    buildDelete "test.products" [] = ("", some "no keys provided") ∧
    buildUpdate "test.products" [("id", Value.num 1)] [] = ("", some "no values provided") :=
  ⟨(c4_missing_keys_values "test.products" [] [("c", Value.str "d")] (by decide)).1 rfl,
    (c4_missing_keys_values "test.products" [] [("c", Value.str "d")] (by decide)).2.1 rfl,
    (c4_missing_keys_values "test.products" [("id", Value.num 1)] []
      (by decide)).2.2 (by decide) rfl⟩

/-! Claim C5. -/

/-- Claim C5: for every non-blank table name, `buildInsert` called with a
columns list and a values list of different lengths returns no SQL text
and the error message reporting both counts. -/
theorem c5_arity_mismatch (table : String) (columns : List String) (values : List Value)
    (_htable : trimSpace table ≠ "") (hlen : columns.length ≠ values.length) :
    buildInsert table columns values =
      ("", some ("expected equal number of columns and values, but got " ++
        toString columns.length ++ " column(s) and " ++ toString values.length ++
        " value(s)")) := by
  unfold buildInsert
  rw [if_pos hlen]

/-- Claim C5, witness: the theorem evaluated on one column and two
values, reproducing the message of the repository test. -/
theorem c5_witness :
    trimSpace "products" ≠ "" ∧
    (["id"] : List String).length ≠ [Value.num 1, Value.str "computer"].length ∧
    buildInsert "products" ["id"] [Value.num 1, Value.str "computer"] =
      ("", some "expected equal number of columns and values, but got 1 column(s) and 2 value(s)") :=
  ⟨by decide, by decide,
    c5_arity_mismatch "products" ["id"] [Value.num 1, Value.str "computer"]
      (by decide) (by decide)⟩

/-! Claim C9. -/

/-- Claim C9: `describeTable` is a pure function of the table name — the
rendered text is the concatenation `DESCRIBE ` ++ table, and two calls on
the same table yield identical SQL text. -/
theorem c9_describeTable_deterministic (table : String) :
    describeTable table = "DESCRIBE " ++ table ∧
    describeTable table = describeTable table :=
  ⟨rfl, rfl⟩

/-! Claim C10. -/

/-- Claim C10: whenever `buildInsert`, `buildUpdate` or `buildDelete`
returns an error, the SQL string returned alongside it is empty — no
partially rendered statement accompanies a failure. -/
theorem c10_error_empty_sql :
    (∀ (table : String) (columns : List String) (values : List Value) (e : String),
      (buildInsert table columns values).2 = some e →
      (buildInsert table columns values).1 = "") ∧
    (∀ (table : String) (keys values : StructuredData) (e : String),
      (buildUpdate table keys values).2 = some e →
      (buildUpdate table keys values).1 = "") ∧
    (∀ (table : String) (keys : StructuredData) (e : String),
      (buildDelete table keys).2 = some e →
      (buildDelete table keys).1 = "") := by
  refine ⟨fun t cs vs e h => ?_, fun t ks vs e h => ?_, fun t ks e h => ?_⟩
  · unfold buildInsert at h ⊢
    split_ifs at h ⊢ <;> simp_all
  · unfold buildUpdate at h ⊢
    split_ifs at h ⊢ <;> simp_all
  · unfold buildDelete at h ⊢
    split_ifs at h ⊢ <;> simp_all

/-- Claim C10, witness: the three parts evaluated on concrete failing
inputs. -/
theorem c10_witness :
    (buildInsert "" [] [Value.num 1]).1 = "" ∧
    (buildUpdate "t" [] []).1 = "" ∧
    (buildDelete "t" []).1 = "" :=
  ⟨c10_error_empty_sql.1 "" [] [Value.num 1] _ rfl,
    c10_error_empty_sql.2.1 "t" [] [] "no keys provided" rfl,
    c10_error_empty_sql.2.2 "t" [] "no keys provided" rfl⟩

/-! Claim C6. -/

/-- Claim C6: for every record whose after image is absent (nil) or
empty, `Update` short-circuits: no SQL statement is built
(`updateSQL` yields `ok none`) and `Update` returns success — for every
database handle, codec and query builder, so no execution can have taken
place and the backend state is untouched. -/
theorem c6_update_empty_payload_noop (j : Jsonlib) (c : SqlClient) (r : Record)
    (h : r.payload.after = none ∨ bytesOf r.payload.after = "") :
    ClientGo.updateSQL j c r = .ok none ∧ ClientGo.Update j c r = .ok () := by
  have hcond : (r.payload.after.isNone || (bytesOf r.payload.after).isEmpty) = true := by
    rcases h with h | h
    · rw [h]
      rfl
    · have he : ("" : String).isEmpty = true := rfl
      rw [h, he, Bool.or_true]
  have h1 : ClientGo.updateSQL j c r = .ok none := by
    unfold ClientGo.updateSQL
    rw [if_pos hcond]
  refine ⟨h1, ?_⟩
  unfold ClientGo.Update
  rw [h1]

/-- Claim C6, witness: the theorem evaluated on an update record whose
after image is nil. -/
theorem c6_witness :
    recEmptyW.payload.after = none ∧ ClientGo.Update jOkW clientOkW recEmptyW = .ok () :=
  ⟨rfl, (c6_update_empty_payload_noop jOkW clientOkW recEmptyW (Or.inl rfl)).2⟩

/-! Claim C7. -/

/-- The normalisation of one value never yields a composite. -/
theorem processValue_not_composite (v : Value) :
    (PartTen.processValue v).isComposite = false := by
  cases v <;> rfl

/-- Every entry of `setKey m k v` is either the new binding or an entry
of `m`. -/
theorem mem_setKey {m : StructuredData} {k : String} {v : Value} {p : String × Value}
    (hp : p ∈ setKey m k v) : p = (k, v) ∨ p ∈ m := by
  unfold setKey at hp
  split at hp
  · obtain ⟨q, hq, hfq⟩ := List.mem_map.mp hp
    by_cases hqk : q.1 = k
    · left
      rw [← hfq, if_pos hqk]
    · right
      rw [← hfq, if_neg hqk]
      exact hq
  · rcases List.mem_append.mp hp with h | h
    · right
      exact h
    · left
      simpa using h

/-- The empty map has no composite values. -/
theorem noComposites_nil : NoComposites [] :=
  fun p hp => absurd hp (List.not_mem_nil p)

/-- Copying a composite-free map into a composite-free accumulator keeps
the result composite-free. -/
theorem noComposites_insertAll :
    ∀ (l acc : StructuredData), NoComposites acc → NoComposites l →
      NoComposites (insertAll acc l)
  | [], _, hacc, _ => hacc
  | q :: t, acc, hacc, hl => by
    have hq : q.2.isComposite = false := hl q (List.mem_cons_self q t)
    have ht : NoComposites t := fun p hp => hl p (List.mem_cons_of_mem q hp)
    show NoComposites (insertAll (setKey acc q.1 q.2) t)
    refine noComposites_insertAll t _ ?_ ht
    intro p hp
    rcases mem_setKey hp with h | h
    · rw [h]
      exact hq
    · exact hacc p h

/-- The merge of two composite-free maps is composite-free. -/
theorem noComposites_merge {m1 m2 : StructuredData}
    (h1 : NoComposites m1) (h2 : NoComposites m2) : NoComposites (merge m1 m2) :=
  noComposites_insertAll m2 _ (noComposites_insertAll m1 [] noComposites_nil h1) h2

/-- The normalisation loop only writes normalised values, so its result
is composite-free whatever the input map holds. -/
theorem noComposites_processFold :
    ∀ (l acc : StructuredData), NoComposites acc →
      NoComposites (l.foldl (fun a p => setKey a p.1 (PartTen.processValue p.2)) acc)
  | [], _, hacc => hacc
  | q :: t, acc, hacc => by
    show NoComposites
      (t.foldl (fun a p => setKey a p.1 (PartTen.processValue p.2))
        (setKey acc q.1 (PartTen.processValue q.2)))
    refine noComposites_processFold t _ ?_
    intro p hp
    rcases mem_setKey hp with h | h
    · rw [h]
      exact processValue_not_composite q.2
    · exact hacc p h

/-- The normalised form of any map is composite-free. -/
theorem noComposites_processData (m : StructuredData) :
    NoComposites (PartTen.processData m) :=
  noComposites_processFold m [] noComposites_nil

/-- Claim C7: whenever the normalisation phase of the serialising
`Insert` succeeds, the flat map it hands to the query builder holds no
composite value — every nested object or list has been re-encoded to its
serialized JSON text, so the builder only ever receives scalars or
strings. -/
theorem c7_composites_serialized (j : Jsonlib) (c : SqlClient) (r : Record)
    (m : StructuredData) (h : PartTen.insertValues j c r = .ok m) :
    NoComposites m := by
  unfold PartTen.insertValues at h
  split at h
  · exact Except.noConfusion h
  · rename_i payload hpay
    split at h
    · exact Except.noConfusion h
    · rename_i key hkey
      have hm : merge (PartTen.processData payload) (PartTen.processData key) = m :=
        Except.ok.inj h
      rw [← hm]
      exact noComposites_merge (noComposites_processData payload) (noComposites_processData key)

/-- Claim C7, witness: a payload holding a nested object is normalised
to its JSON text before the merge. -/
theorem c7_witness :
    PartTen.insertValues jObjW clientOkW recW = .ok [("a", Value.str "\x7b\x22x\x22:1\x7d")] ∧
    NoComposites [("a", Value.str "\x7b\x22x\x22:1\x7d")] :=
  ⟨rfl, c7_composites_serialized jObjW clientOkW recW _ rfl⟩

/-! Claim C8. -/

/-- When every record of the list is handled successfully, the write loop
reports no failure. -/
theorem writeAux_all_ok {cl : ClientOps} :
    ∀ (l : List Record) (i : Nat), (∀ r ∈ l, route cl r = .ok ()) →
      writeAux cl l i = none
  | [], _, _ => rfl
  | r :: t, i, h => by
    have hr : route cl r = .ok () := h r (List.mem_cons_self r t)
    have ht : ∀ q ∈ t, route cl q = .ok () := fun q hq => h q (List.mem_cons_of_mem r hq)
    unfold writeAux
    rw [hr]
    exact writeAux_all_ok t (i + 1) ht

/-- When every record before `r` is handled successfully and `r` fails,
the write loop stops at `r` and reports its index, whatever records
follow. -/
theorem writeAux_fails {cl : ClientOps} {r : Record} {e : String}
    (hr : route cl r = .error e) :
    ∀ (pre tail : List Record) (i : Nat), (∀ x ∈ pre, route cl x = .ok ()) →
      writeAux cl (pre ++ r :: tail) i = some (i + pre.length, e)
  | [], tail, i, _ => by
    show writeAux cl (r :: tail) i = some (i + List.length [], e)
    unfold writeAux
    rw [hr]
    simp
  | x :: pre, tail, i, h => by
    have hx : route cl x = .ok () := h x (List.mem_cons_self x pre)
    have hpre : ∀ q ∈ pre, route cl q = .ok () := fun q hq => h q (List.mem_cons_of_mem x hq)
    show writeAux cl (x :: (pre ++ r :: tail)) i = some (i + (x :: pre).length, e)
    unfold writeAux
    rw [hx]
    show writeAux cl (pre ++ r :: tail) (i + 1) = some (i + (x :: pre).length, e)
    rw [writeAux_fails hr pre tail (i + 1) hpre]
    have hi : i + 1 + pre.length = i + (x :: pre).length := by
      simp only [List.length_cons]
      omega
    rw [hi]

/-- Claim C8: `Write` handles the records sequentially in order; when
every record succeeds it returns the total number of records and no
error, and when a record fails after a successful prefix it returns the
zero-based index of that first failing record together with the wrapped
error — whatever records follow the failing one, which captures that no
further record of the batch is attempted. -/
theorem c8_write_first_failure_index :
    (∀ (cl : ClientOps) (records : List Record),
      (∀ r ∈ records, route cl r = .ok ()) →
      Write cl records = (records.length, none)) ∧
    (∀ (cl : ClientOps) (pre : List Record) (r : Record) (tail : List Record) (e : String),
      (∀ x ∈ pre, route cl x = .ok ()) → route cl r = .error e →
      Write cl (pre ++ r :: tail) = (pre.length, some ("unable to handle record: " ++ e))) := by
  constructor
  · intro cl records h
    unfold Write
    rw [writeAux_all_ok records 0 h]
  · intro cl pre r tail e hpre hr
    unfold Write
    rw [writeAux_fails hr pre tail 0 hpre]
    simp

/-- Claim C8, witness: a batch where every record succeeds returns the
batch size, and a batch whose second record fails returns index 1 with
the wrapped error, without looking at the third record. -/
theorem c8_witness :
    Write opsOkW [recUpdW, recDelW] = (2, none) ∧
    Write opsFailW [recUpdW, recCreateW, recDelW] =
      (1, some "unable to handle record: boom") :=
  ⟨c8_write_first_failure_index.1 opsOkW [recUpdW, recDelW]
      (by
        intro x hx
        rcases List.mem_cons.mp hx with h | hx
        · rw [h]; rfl
        · rcases List.mem_cons.mp hx with h | hx
          · rw [h]; rfl
          · exact absurd hx (List.not_mem_nil x)),
    c8_write_first_failure_index.2 opsFailW [recUpdW] recCreateW [recDelW] "boom"
      (by
        intro x hx
        rcases List.mem_cons.mp hx with h | hx
        · rw [h]; rfl
        · exact absurd hx (List.not_mem_nil x))
      rfl⟩
